import Mathlib

/-!
Verification development for the intelligent-study-assistant repository.

The planner (`src/models/study_planner.py`) is embedded shallowly:

* Python floats are modelled by `ℚ`; `round(x, 1)` is modelled by `round1`
  (round-half-up on the scaled value), `int(x)` by `pyInt` (truncation toward
  zero), and float floor-division `//` by `pyFloorDiv`.
* Calendar dates are modelled as integer day offsets from the run date
  (`datetime.now()`), so `datetime.now() + timedelta(days=k)` is just `k`.
* Python dictionary lookups that can raise `KeyError`, indexing an empty
  `preferred_times`, and the `ZeroDivisionError` on an empty topic list in the
  plain revision phase are modelled by `Option`: `none` is an uncaught
  exception.
* The mutable `while` loop of `_create_daily_schedule` is modelled by a step
  function `loopStep`, a guard `loopGuard` and a fuel-indexed iterator
  `loopRun`; the fuel `loopMeasure` is proved sufficient below.

All definitions are executable so that theorems can be checked on concrete
inputs with `decide`.
-/

/-- `round(q, 1)` from Python, modelled with round-half-up on `ℚ`.
Python rounds exact float ties half-even instead; every concrete value a
theorem below depends on is tie-free at the rounding position, so the two
conventions agree there. -/
def round1 (q : ℚ) : ℚ := (round (q * 10) : ℚ) / 10

/-- Python `int(q)`: truncation toward zero. -/
def pyInt (q : ℚ) : ℤ := if q < 0 then -⌊-q⌋ else ⌊q⌋

/-- Python float floor-division `a // b`. -/
def pyFloorDiv (a b : ℚ) : ℚ := (⌊a / b⌋ : ℚ)

/-- Association-list lookup keyed by strings (Python `dict` access). -/
def alookup {α : Type} : List (String × α) → String → Option α
  | [], _ => none
  | (k, v) :: rest, key => if k = key then some v else alookup rest key

/-- `dict` lookup with default `0`, for the progress/time tables. -/
def alookupD (l : List (String × ℚ)) (key : String) : ℚ := (alookup l key).getD 0

/-- `topic_progress[topic] += delta` on the progress table. -/
def addProgress (l : List (String × ℚ)) (key : String) (delta : ℚ) :
    List (String × ℚ) :=
  l.map (fun p => if p.1 = key then (p.1, p.2 + delta) else p)

/-- Entry of `self.learning_pace` (hours per topic, revision ratio). -/
structure PaceInfo where
  hours_per_topic : ℚ
  revision_ratio : ℚ
deriving DecidableEq, Repr

/-- Entry of `self.session_patterns` (all three lengths, in minutes). -/
structure SessionInfo where
  session_length : ℚ
  break_length : ℚ
  long_break : ℚ
deriving DecidableEq, Repr

/-- `self.learning_pace` from `IntelligentStudyPlanner.__init__`. -/
def learning_pace : String → Option PaceInfo
  | "slow" => some ⟨4, 2/5⟩
  | "moderate" => some ⟨5/2, 3/10⟩
  | "fast" => some ⟨3/2, 1/5⟩
  | _ => none

/-- `self.session_patterns` from `IntelligentStudyPlanner.__init__`. -/
def session_patterns : String → Option SessionInfo
  | "pomodoro" => some ⟨25, 5, 15⟩
  | "deep_work" => some ⟨90, 20, 30⟩
  | "short_burst" => some ⟨15, 5, 10⟩
  | _ => none

/-- The student profile dictionary, with the defaults used by
`generate_personalized_plan` already applied. -/
structure StudentProfile where
  learning_pace : String := "moderate"
  study_pattern : String := "pomodoro"
  daily_available_hours : ℚ := 3
  preferred_times : List String := ["evening"]
  weak_areas : List String := []
deriving DecidableEq, Repr

/-- A scheduled study session (an entry of a day's `sessions` list). -/
structure Session where
  topic : String
  duration_minutes : ℚ
  activities : List String
  is_weak_area : Bool := false
deriving DecidableEq, Repr

/-- One day of the produced `daily_plan` (the date is a day offset). -/
structure DaySchedule where
  day : ℕ
  date : ℤ
  phase : String
  preferred_time : String
  sessions : List Session
  total_hours : ℚ
deriving DecidableEq, Repr

/-- One suggestion from `_generate_infeasible_response`.  The rendered
strings are abstracted to the numbers interpolated into them: the first
carries the suggested and the current daily hours, the second carries the
computed `new_deadline` and the current `days` (the text shows their
difference), the third is fixed text. -/
inductive Suggestion where
  | increaseDailyHours (newDaily : ℚ) (oldDaily : ℚ)
  | extendDeadline (newDeadline : ℤ) (oldDays : ℕ)
  | fastPace
deriving DecidableEq, Repr

/-- The infeasible branch of the returned plan dictionary. -/
structure InfeasibleResponse where
  message : String
  hours_short : ℚ
  suggestions : List Suggestion
deriving DecidableEq, Repr

/-- The feasible branch of the returned plan dictionary. -/
structure PlanFeasible where
  subject : String
  student_profile : StudentProfile
  total_topics : ℕ
  deadline : ℤ
  total_hours_needed : ℚ
  total_hours_available : ℚ
  buffer_hours : ℚ
  daily_plan : List DaySchedule
  study_tips : List String
deriving DecidableEq, Repr

/-- Result of `generate_personalized_plan`: the dictionary is either the
full feasible record or the full infeasible record. -/
inductive PlanResult where
  | feasible (p : PlanFeasible)
  | infeasible (r : InfeasibleResponse)
deriving DecidableEq, Repr

/-- Per-topic body of the loop in `_calculate_topic_times`: weak-area and
difficulty multipliers applied to the pace's base hours, then rounded. -/
def allocOne (base_hours : ℚ) (isWeak : Prop) [Decidable isWeak]
    (difficulty : Option String) : ℚ :=
  let hours := base_hours
  let hours := if isWeak then hours * 1.5 else hours
  let hours :=
    match difficulty with
    | some diff => if diff = "hard" then hours * 1.3
                   else if diff = "easy" then hours * 0.7 else hours
    | none => hours
  round1 hours

/-- `_calculate_topic_times`, as the association list it builds in topic
order.  The source re-reads `self.learning_pace[pace]["hours_per_topic"]`;
here the looked-up base hours are passed in by the (single) caller. -/
def _calculate_topic_times (topics : List String) (base_hours : ℚ)
    (weak_areas : List String) (difficulty_levels : List (String × String)) :
    List (String × ℚ) :=
  topics.map (fun topic =>
    (topic, allocOne base_hours (topic ∈ weak_areas)
      (alookup difficulty_levels topic)))

/-- `_generate_activities`. -/
def _generate_activities (topic : String) (duration_hours : ℚ)
    (is_weak : Bool) : List String :=
  let activities :=
    if duration_hours ≥ 1.5 then
      ["Watch tutorial/lecture on " ++ topic ++ " (30 min)",
       "Read textbook chapter on " ++ topic ++ " (25 min)",
       "Take notes and summarize key concepts (20 min)",
       "Practice problems/examples (25 min)",
       "Create flashcards for " ++ topic ++ " (10 min)"]
    else if duration_hours ≥ 1 then
      ["Study " ++ topic ++ " theory (30 min)",
       "Practice 3-5 problems on " ++ topic ++ " (20 min)",
       "Review and summarize (10 min)"]
    else
      ["Quick review of " ++ topic ++ " concepts",
       "Practice 2-3 problems"]
  if is_weak then activities ++ ["Extra focus needed - spend more time on examples"]
  else activities

/-- The session dictionary built in the learning-phase loop body. -/
def mkLearningSession (topic : String) (session_hours : ℚ)
    (weak_areas : List String) : Session :=
  { topic := topic,
    duration_minutes := (pyInt (session_hours * 60) : ℚ),
    activities := _generate_activities topic session_hours
      (decide (topic ∈ weak_areas)),
    is_weak_area := decide (topic ∈ weak_areas) }

/-- State of the learning-phase `while` loop: remaining hours of the day,
the shared topic queue, the shared progress table, and the sessions and
total hours accumulated into the day's schedule. -/
structure LoopState where
  hours_remaining : ℚ
  queue : List String
  progress : List (String × ℚ)
  sessions : List Session
  total_hours : ℚ
deriving DecidableEq, Repr

/-- Guard of the `while` loop: `hours_remaining > 0 and topics_queue`. -/
def loopGuard (st : LoopState) : Bool :=
  decide (0 < st.hours_remaining ∧ st.queue ≠ [])

/-- One iteration of the learning-phase `while` loop body. -/
def loopStep (si : SessionInfo) (topic_times : List (String × ℚ))
    (weak_areas : List String) (st : LoopState) : LoopState :=
  match st.queue with
  | [] => st
  | current_topic :: rest =>
    let time_needed :=
      alookupD topic_times current_topic - alookupD st.progress current_topic
    let session_hours :=
      min (si.session_length / 60) (min st.hours_remaining time_needed)
    if 1/10 < session_hours then
      let session := mkLearningSession current_topic session_hours weak_areas
      let progress := addProgress st.progress current_topic session_hours
      let h1 := st.hours_remaining - session_hours
      let h2 := if 0 < h1 then h1 - si.break_length / 60 else h1
      { hours_remaining := h2,
        queue :=
          if alookupD topic_times current_topic ≤
              alookupD progress current_topic
          then rest else current_topic :: rest,
        progress := progress,
        sessions := st.sessions ++ [session],
        total_hours := st.total_hours + session_hours }
    else
      { st with queue := rest }

/-- Fuel-indexed iteration of the loop. -/
def loopRun (si : SessionInfo) (topic_times : List (String × ℚ))
    (weak_areas : List String) : ℕ → LoopState → LoopState
  | 0, st => st
  | n + 1, st =>
    if loopGuard st then
      loopRun si topic_times weak_areas n (loopStep si topic_times weak_areas st)
    else st

/-- Fuel that is proved sufficient for the loop to reach its exit
condition: tenths of remaining hours plus queued topics. -/
def loopMeasure (st : LoopState) : ℕ :=
  (⌈st.hours_remaining * 10⌉).toNat + st.queue.length

/-- `revision_days = max(2, int(deadline_days * 0.2))`; for the natural
deadlines in scope `int(d * 0.2)` is exactly `d / 5`. -/
def revisionDays (deadline_days : ℕ) : ℕ := max 2 (deadline_days / 5)

/-- Phase label of revision day `day` (0-based within the phase). -/
def revisionDayPhase (revision_days day : ℕ) : String :=
  if day = revision_days - 1 then "Final Review & Mock Test"
  else if day = revision_days - 2 then "Intensive Revision"
  else "Revision"

/-- `_generate_revision_sessions`. -/
def _generate_revision_sessions (topics weak_areas : List String)
    (daily_hours : ℚ) (phase : String) : List Session :=
  if phase = "Final Review & Mock Test" then
    [{ topic := "All Topics",
       duration_minutes := (pyInt (daily_hours * 30) : ℚ),
       activities :=
         ["Quick review of all topics (1 hour)",
          "Take full mock test (1.5 hours)",
          "Review mistakes and weak areas (30 min)"],
       is_weak_area := false }]
  else if phase = "Intensive Revision" then
    let time_per_topic := pyFloorDiv (daily_hours * 60) (max weak_areas.length 1)
    weak_areas.map (fun topic =>
      { topic := topic,
        duration_minutes := time_per_topic,
        activities :=
          ["Intensive review of " ++ topic,
           "Practice difficult problems on " ++ topic,
           "Clarify doubts"],
        is_weak_area := true })
  else
    let time_per_topic := pyFloorDiv (daily_hours * 60) topics.length
    topics.map (fun topic =>
      { topic := topic,
        duration_minutes := time_per_topic,
        activities :=
          ["Review " ++ topic ++ " notes",
           "Practice mixed problems"],
        is_weak_area := false })

/-- The learning-phase `for day in range(study_days)` loop, threading the
shared topic queue and progress table across days.  `dayIdx` is the 0-based
day offset (the global `day_num` counter is `dayIdx + 1` here). -/
def learningPhase (si : SessionInfo) (topic_times : List (String × ℚ))
    (weak_areas preferred_times : List String) (daily_hours : ℚ) :
    ℕ → ℕ → List String → List (String × ℚ) →
    List DaySchedule × List String × List (String × ℚ)
  | 0, _, queue, progress => ([], queue, progress)
  | n + 1, dayIdx, queue, progress =>
    let st0 : LoopState := ⟨daily_hours, queue, progress, [], 0⟩
    let st := loopRun si topic_times weak_areas (loopMeasure st0) st0
    let ds : DaySchedule :=
      { day := dayIdx + 1,
        date := (dayIdx : ℤ),
        phase := "Learning",
        preferred_time :=
          preferred_times.getD (dayIdx % preferred_times.length) "",
        sessions := st.sessions,
        total_hours := st.total_hours }
    let rest := learningPhase si topic_times weak_areas preferred_times
      daily_hours n (dayIdx + 1) st.queue st.progress
    (ds :: rest.1, rest.2)

/-- The revision-phase `for day in range(revision_days)` loop.  The date
offset is `study_days + day` with the possibly negative Python value of
`study_days`, while `studyCount` is the number of learning days emitted. -/
def revisionPhase (topics weak_areas preferred_times : List String)
    (daily_hours : ℚ) (deadline_days revision_days studyCount : ℕ) :
    List DaySchedule :=
  (List.range revision_days).map (fun day =>
    { day := studyCount + day + 1,
      date := (deadline_days : ℤ) - (revision_days : ℤ) + (day : ℤ),
      phase := revisionDayPhase revision_days day,
      preferred_time :=
        preferred_times.getD (day % preferred_times.length) "",
      sessions := _generate_revision_sessions topics weak_areas daily_hours
        (revisionDayPhase revision_days day),
      total_hours := daily_hours })

/-- `_create_daily_schedule`.  `none` models the uncaught exceptions: an
unknown study pattern (`KeyError`), an empty `preferred_times` (indexing by
`day % 0`), and an empty topic list when a plain revision day exists
(`ZeroDivisionError` in `_generate_revision_sessions`). -/
def _create_daily_schedule (topics : List String)
    (topic_times : List (String × ℚ)) (deadline_days : ℕ) (daily_hours : ℚ)
    (preferred_times : List String) (pattern : String)
    (weak_areas : List String) : Option (List DaySchedule) :=
  match session_patterns pattern with
  | none => none
  | some session_info =>
    if preferred_times.isEmpty then none
    else
      let revision_days := revisionDays deadline_days
      let studyCount := deadline_days - revision_days
      if topics.isEmpty ∧ 3 ≤ revision_days then none
      else
        let progress0 := topics.map (fun t => (t, (0 : ℚ)))
        let learn := learningPhase session_info topic_times weak_areas
          preferred_times daily_hours studyCount 0 topics progress0
        some (learn.1 ++ revisionPhase topics weak_areas preferred_times
          daily_hours deadline_days revision_days studyCount)

/-- Renders `{q:.1f}` (with the same half-up convention as `round1`). -/
def fmt1 (q : ℚ) : String :=
  let n := round (q * 10)
  (if n < 0 then "-" else "") ++
    toString (n.natAbs / 10) ++ "." ++ toString (n.natAbs % 10)

/-- `_generate_infeasible_response`. -/
def _generate_infeasible_response (needed available : ℚ) (days : ℕ)
    (daily_hours : ℚ) : InfeasibleResponse :=
  let hours_short := needed - available
  let new_daily_hours := needed / (days : ℚ)
  let s1 : List Suggestion :=
    if new_daily_hours ≤ 12 then
      [Suggestion.increaseDailyHours new_daily_hours daily_hours]
    else []
  let new_deadline := pyInt (needed / daily_hours) + 1
  { message := "Not enough time! Need " ++ fmt1 needed ++
      " hours but only have " ++ fmt1 available ++ " hours.",
    hours_short := round1 hours_short,
    suggestions := s1 ++ [Suggestion.extendDeadline new_deadline days,
      Suggestion.fastPace] }

/-- `_generate_personalized_tips` (its `topics` parameter is unused in the
source as well). -/
def _generate_personalized_tips (profile : StudentProfile)
    (_topics : List String) : List String :=
  let tips : List String := []
  let tips := tips ++
    (if profile.learning_pace = "slow" then
      ["Take your time - deep understanding beats speed",
       "Make detailed notes and revisit them daily"]
    else if profile.learning_pace = "fast" then
      ["You learn quickly - but don\x27t skip revision!",
       "Challenge yourself with advanced problems"]
    else [])
  let tips := tips ++
    (if profile.study_pattern = "pomodoro" then
      ["Use a Pomodoro timer app to stay on track"]
    else if profile.study_pattern = "deep_work" then
      ["Eliminate all distractions during 90-min sessions"]
    else [])
  let tips := tips ++
    (if profile.weak_areas ≠ [] then
      ["Extra focus on: " ++ String.intercalate ", " (profile.weak_areas.take 3),
       "Consider finding a study partner for weak topics"]
    else [])
  tips ++ ["Stay hydrated and take regular breaks",
    "Get 7-8 hours of sleep for better retention"]

/-- `generate_personalized_plan`.  `none` models an uncaught exception
(unknown learning pace, and the `_create_daily_schedule` failures). -/
def generate_personalized_plan (student_profile : StudentProfile)
    (subject : String) (topics : List String) (deadline_days : ℕ)
    (difficulty_levels : List (String × String)) : Option PlanResult :=
  match learning_pace student_profile.learning_pace with
  | none => none
  | some pace_info =>
    let topic_time_allocation := _calculate_topic_times topics
      pace_info.hours_per_topic student_profile.weak_areas difficulty_levels
    let total_hours_needed := (topic_time_allocation.map Prod.snd).sum
    let total_hours_available :=
      (deadline_days : ℚ) * student_profile.daily_available_hours
    let total_with_revision := total_hours_needed * (1 + pace_info.revision_ratio)
    if total_hours_available < total_with_revision then
      some (PlanResult.infeasible (_generate_infeasible_response
        total_with_revision total_hours_available deadline_days
        student_profile.daily_available_hours))
    else
      match _create_daily_schedule topics topic_time_allocation deadline_days
        student_profile.daily_available_hours student_profile.preferred_times
        student_profile.study_pattern student_profile.weak_areas with
      | none => none
      | some daily_plan =>
        some (PlanResult.feasible
          { subject := subject,
            student_profile := student_profile,
            total_topics := topics.length,
            deadline := (deadline_days : ℤ),
            total_hours_needed := round1 total_with_revision,
            total_hours_available := total_hours_available,
            buffer_hours := round1 (total_hours_available - total_with_revision),
            daily_plan := daily_plan,
            study_tips := _generate_personalized_tips student_profile topics })

/-- Models Python `str.title()` on the short tag strings that reach it
(single words), by capitalizing the first character. -/
def titleStr (s : String) : String := s.capitalize

/-- Renders a number the way the summary's plain `{...}` interpolation
does; integral values print without a fractional part, other values are
shown to one decimal (a simplification of Python float repr). -/
def pyNumStr (q : ℚ) : String :=
  if q.den = 1 then toString q.num else fmt1 q

/-- One line of the rendered suggestion list (the strings built in
`_generate_infeasible_response`). -/
def renderSuggestion (days : ℕ) (s : Suggestion) : String :=
  match s with
  | Suggestion.increaseDailyHours newDaily oldDaily =>
    "Study " ++ fmt1 newDaily ++ " hours per day instead of " ++ pyNumStr oldDaily
  | Suggestion.extendDeadline newDeadline _old =>
    "Extend deadline by " ++ toString (newDeadline - (days : ℤ)) ++ " days"
  | Suggestion.fastPace =>
    "Consider switching to \x27fast\x27 learning pace if you\x27re confident"

/-- The per-day block of `get_plan_summary`. -/
def renderDay (day : DaySchedule) : String :=
  "\nDay " ++ toString day.day ++ " (" ++ toString day.date ++ ") - " ++
    day.phase ++ "\n" ++
  "  Preferred Time: " ++ titleStr day.preferred_time ++ "\n" ++
  "  Total Hours: " ++ fmt1 day.total_hours ++ "h\n" ++
  (if day.sessions.isEmpty then ""
   else
     "  Sessions:\n" ++
     String.join (((day.sessions.take 3).enumFrom 1).map (fun si =>
       "    " ++ toString si.1 ++ ". " ++ si.2.topic ++
         (if si.2.is_weak_area then " (Weak Area)" else "") ++
         " (" ++ pyNumStr si.2.duration_minutes ++ " min)\n")) ++
     (if 3 < day.sessions.length then
       "    ... and " ++ toString (day.sessions.length - 3) ++ " more sessions\n"
      else ""))

/-- `get_plan_summary`.  The caller passes the number of deadline days so
the infeasible suggestion lines can be rendered; string-method details
(`upper`, `title`, date formatting) are modelled by the helpers above. -/
def get_plan_summary (deadline_days : ℕ) (plan : PlanResult) : String :=
  match plan with
  | PlanResult.infeasible r =>
    r.message ++ "\n\n" ++ "Suggestions:\n" ++
      String.join ((r.suggestions.enumFrom 1).map (fun si =>
        "  " ++ toString si.1 ++ ". " ++ renderSuggestion deadline_days si.2 ++ "\n"))
  | PlanResult.feasible p =>
    "\nPERSONALIZED STUDY PLAN FOR " ++ p.subject.toUpper ++ "\n\n" ++
    "OVERVIEW:\n" ++
    "  Total Topics: " ++ toString p.total_topics ++ "\n" ++
    "  Deadline: " ++ toString p.deadline ++ "\n" ++
    "  Total Hours Needed: " ++ pyNumStr p.total_hours_needed ++ "h\n" ++
    "  Buffer Time: " ++ pyNumStr p.buffer_hours ++ "h\n" ++
    "  Learning Pace: " ++ titleStr p.student_profile.learning_pace ++ "\n" ++
    "  Study Pattern: " ++ titleStr p.student_profile.study_pattern ++ "\n" ++
    "\nDAILY SCHEDULE:\n" ++
    String.join (p.daily_plan.map renderDay) ++
    "\n\nPERSONALIZED TIPS:\n" ++
    String.join (p.study_tips.map (fun tip => "  - " ++ tip ++ "\n"))

/-- Outcome of the remote LangChain call in `StudyChatbot.ask`:
`Except.ok` carries the generated message content, `Except.error` carries
the stringified exception `str(e)`. -/
def StudyChatbot.ask (remote : Except String String) : String :=
  match remote with
  | Except.ok content => content.trim
  | Except.error e => "Error: " ++ e

/-- Is the result the infeasible dictionary? -/
def resultIsInfeasible : Option PlanResult → Bool
  | some (PlanResult.infeasible _) => true
  | _ => false

/-- Is the result the feasible dictionary? -/
def resultIsFeasible : Option PlanResult → Bool
  | some (PlanResult.feasible _) => true
  | _ => false

/-- `total_hours_needed` of a feasible result. -/
def totalHoursNeededOf : Option PlanResult → Option ℚ
  | some (PlanResult.feasible p) => some p.total_hours_needed
  | _ => none

/-- `len(daily_plan)` of a feasible result. -/
def feasiblePlanDays : Option PlanResult → Option ℕ
  | some (PlanResult.feasible p) => some p.daily_plan.length
  | _ => none

/-- Durations of the sessions on the last day of a feasible plan. -/
def lastDaySessionDurations : Option PlanResult → Option (List ℚ)
  | some (PlanResult.feasible p) =>
    some (((p.daily_plan.getLast?).map
      (fun d => d.sessions.map Session.duration_minutes)).getD [])
  | _ => none

/-- The suggestion list of an infeasible result. -/
def suggestionsOf : Option PlanResult → Option (List Suggestion)
  | some (PlanResult.infeasible r) => some r.suggestions
  | _ => none

/-- Does the result report a feasible plan whose rounded
`total_hours_needed` exceeds `total_hours_available`? -/
def feasibleNeedExceedsAvail : Option PlanResult → Bool
  | some (PlanResult.feasible p) =>
    decide (p.total_hours_available < p.total_hours_needed)
  | _ => false

/-- Lines 57-65 of the source: the sum of the per-topic allocations times
`1 + revision_ratio`, and `0` for an unknown pace (where the source would
already have raised). -/
def totalWithRevisionQ (profile : StudentProfile) (topics : List String)
    (difficulty_levels : List (String × String)) : ℚ :=
  match learning_pace profile.learning_pace with
  | some pace_info =>
    ((_calculate_topic_times topics pace_info.hours_per_topic
      profile.weak_areas difficulty_levels).map Prod.snd).sum *
      (1 + pace_info.revision_ratio)
  | none => 0

/-- `total_hours_available = deadline_days * daily_hours`. -/
def totalAvailableQ (profile : StudentProfile) (deadline_days : ℕ) : ℚ :=
  (deadline_days : ℚ) * profile.daily_available_hours

/-- Each guarded iteration of the learning-phase loop strictly decreases
`loopMeasure`: a skipped tiny session pops the queue, and an emitted
session consumes strictly more than a tenth of an hour. -/
lemma loopMeasure_step_lt (si : SessionInfo) (topic_times : List (String × ℚ))
    (weak_areas : List String) (st : LoopState) (hb : 0 ≤ si.break_length)
    (hg : loopGuard st = true) :
    loopMeasure (loopStep si topic_times weak_areas st) < loopMeasure st := by
  have hg' : 0 < st.hours_remaining ∧ st.queue ≠ [] := by
    simpa [loopGuard] using hg
  obtain ⟨h, q, pr, ss, tot⟩ := st
  obtain ⟨hh, hq⟩ := hg'
  simp only at hh hq
  cases q with
  | nil => exact absurd rfl hq
  | cons t rest =>
    by_cases hs :
        (1 : ℚ)/10 <
          min (si.session_length / 60) (min h (alookupD topic_times t - alookupD pr t))
    · have hsh :
          min (si.session_length / 60) (min h (alookupD topic_times t - alookupD pr t)) ≤ h :=
        le_trans (min_le_right _ _) (min_le_left _ _)
      simp only [loopStep, loopMeasure, if_pos hs]
      set s := min (si.session_length / 60) (min h (alookupD topic_times t - alookupD pr t))
        with hsdef
      have hh2 :
          (if 0 < h - s then h - s - si.break_length / 60 else h - s) ≤ h - s := by
        split
        · linarith
        · linarith
      have h10 :
          (if 0 < h - s then h - s - si.break_length / 60 else h - s) * 10 ≤ h * 10 - 1 := by
        nlinarith
      have hceil :
          ⌈(if 0 < h - s then h - s - si.break_length / 60 else h - s) * 10⌉ ≤ ⌈h * 10⌉ - 1 := by
        calc ⌈(if 0 < h - s then h - s - si.break_length / 60 else h - s) * 10⌉
            ≤ ⌈h * 10 - 1⌉ := Int.ceil_le_ceil h10
          _ = ⌈h * 10 - ((1 : ℤ) : ℚ)⌉ := by norm_num
          _ = ⌈h * 10⌉ - 1 := Int.ceil_sub_int _ _
      have hpos : 1 ≤ ⌈h * 10⌉ := by
        have : (0 : ℚ) < h * 10 := by positivity
        exact Int.ceil_pos.mpr this
      have hqlen :
          (if alookupD topic_times t ≤ alookupD (addProgress pr t s) t
           then rest else t :: rest).length ≤ rest.length + 1 := by
        split <;> simp
      simp only [List.length_cons]
      omega
    · simp only [loopStep, loopMeasure, if_neg hs, List.length_cons]
      omega

/-- With `loopMeasure` as fuel the loop really reaches its exit condition
(the guard is false on the final state), for the non-negative break
lengths of the session-pattern table. -/
lemma loopRun_guard_false (si : SessionInfo) (topic_times : List (String × ℚ))
    (weak_areas : List String) (hb : 0 ≤ si.break_length) :
    ∀ (n : ℕ) (st : LoopState), loopMeasure st ≤ n →
      loopGuard (loopRun si topic_times weak_areas n st) = false := by
  intro n
  induction n with
  | zero =>
    intro st hle
    simp only [loopRun]
    cases hgv : loopGuard st with
    | false => rfl
    | true =>
      exfalso
      have hg' : 0 < st.hours_remaining := by
        have := hgv
        simp [loopGuard] at this
        exact this.1
      have : (0 : ℚ) < st.hours_remaining * 10 := by positivity
      have h1 : 1 ≤ ⌈st.hours_remaining * 10⌉ := Int.ceil_pos.mpr this
      have : 1 ≤ loopMeasure st := by
        unfold loopMeasure
        omega
      omega
  | succ n ih =>
    intro st hle
    simp only [loopRun]
    by_cases hgv : loopGuard st = true
    · rw [if_pos hgv]
      apply ih
      have := loopMeasure_step_lt si topic_times weak_areas st hb hgv
      omega
    · rw [if_neg hgv]
      exact Bool.not_eq_true _ |>.mp hgv

/-- The learning phase emits exactly one `DaySchedule` per study day. -/
lemma learningPhase_length (si : SessionInfo) (topic_times : List (String × ℚ))
    (weak_areas preferred_times : List String) (daily_hours : ℚ) :
    ∀ (n dayIdx : ℕ) (queue : List String) (progress : List (String × ℚ)),
      (learningPhase si topic_times weak_areas preferred_times daily_hours
        n dayIdx queue progress).1.length = n := by
  intro n
  induction n with
  | zero => intro dayIdx queue progress; simp [learningPhase]
  | succ n ih =>
    intro dayIdx queue progress
    simp [learningPhase, ih]

/-- The revision phase emits exactly `revision_days` entries. -/
lemma revisionPhase_length (topics weak_areas preferred_times : List String)
    (daily_hours : ℚ) (deadline_days revision_days studyCount : ℕ) :
    (revisionPhase topics weak_areas preferred_times daily_hours deadline_days
      revision_days studyCount).length = revision_days := by
  simp [revisionPhase]

/-- Unfolding of `_create_daily_schedule` on inputs where no exception is
raised: a known pattern, a non-empty `preferred_times` and a non-empty
topic list. -/
lemma create_daily_schedule_eq (topics : List String)
    (topic_times : List (String × ℚ)) (deadline_days : ℕ) (daily_hours : ℚ)
    (preferred_times : List String) (pattern : String)
    (weak_areas : List String) (si : SessionInfo)
    (hpat : session_patterns pattern = some si)
    (hpt : preferred_times ≠ []) (htop : topics ≠ []) :
    _create_daily_schedule topics topic_times deadline_days daily_hours
        preferred_times pattern weak_areas =
      some ((learningPhase si topic_times weak_areas preferred_times
          daily_hours (deadline_days - revisionDays deadline_days) 0 topics
          (topics.map (fun t => (t, (0 : ℚ))))).1 ++
        revisionPhase topics weak_areas preferred_times daily_hours
          deadline_days (revisionDays deadline_days)
          (deadline_days - revisionDays deadline_days)) := by
  have h1 : ¬ (preferred_times.isEmpty = true) := by
    simpa [List.isEmpty_iff] using hpt
  have h2 : ¬ (topics.isEmpty = true ∧ 3 ≤ revisionDays deadline_days) := by
    intro hc
    exact htop (List.isEmpty_iff.mp hc.1)
  simp only [_create_daily_schedule, hpat, if_neg h1, if_neg h2]

/-- Inversion of a feasible result of `generate_personalized_plan`: the
pace lookup succeeded, the feasibility guard passed, the daily schedule
was built, and the returned record is exactly the one the source
assembles. -/
lemma generate_feasible_inv (profile : StudentProfile) (subject : String)
    (topics : List String) (deadline_days : ℕ)
    (difficulty_levels : List (String × String))
    (hf : resultIsFeasible (generate_personalized_plan profile subject topics
      deadline_days difficulty_levels) = true) :
    ∃ pace_info dp,
      learning_pace profile.learning_pace = some pace_info ∧
      ¬ (totalAvailableQ profile deadline_days <
          totalWithRevisionQ profile topics difficulty_levels) ∧
      _create_daily_schedule topics
          (_calculate_topic_times topics pace_info.hours_per_topic
            profile.weak_areas difficulty_levels)
          deadline_days profile.daily_available_hours profile.preferred_times
          profile.study_pattern profile.weak_areas = some dp ∧
      generate_personalized_plan profile subject topics deadline_days
          difficulty_levels =
        some (PlanResult.feasible
          { subject := subject,
            student_profile := profile,
            total_topics := topics.length,
            deadline := (deadline_days : ℤ),
            total_hours_needed :=
              round1 (totalWithRevisionQ profile topics difficulty_levels),
            total_hours_available := totalAvailableQ profile deadline_days,
            buffer_hours := round1 (totalAvailableQ profile deadline_days -
              totalWithRevisionQ profile topics difficulty_levels),
            daily_plan := dp,
            study_tips := _generate_personalized_tips profile topics }) := by
  cases hp : learning_pace profile.learning_pace with
  | none =>
    simp only [generate_personalized_plan, hp] at hf
    simp [resultIsFeasible] at hf
  | some pace_info =>
    have htot : totalWithRevisionQ profile topics difficulty_levels =
        ((_calculate_topic_times topics pace_info.hours_per_topic
          profile.weak_areas difficulty_levels).map Prod.snd).sum *
          (1 + pace_info.revision_ratio) := by
      simp [totalWithRevisionQ, hp]
    have havail : totalAvailableQ profile deadline_days =
        (deadline_days : ℚ) * profile.daily_available_hours := rfl
    simp only [generate_personalized_plan, hp] at hf ⊢
    split at hf
    · simp [resultIsFeasible] at hf
    · rename_i hC
      rw [if_neg hC]
      cases hdp : _create_daily_schedule topics
          (_calculate_topic_times topics pace_info.hours_per_topic
            profile.weak_areas difficulty_levels)
          deadline_days profile.daily_available_hours profile.preferred_times
          profile.study_pattern profile.weak_areas with
      | none =>
        rw [hdp] at hf
        simp [resultIsFeasible] at hf
      | some dp =>
        refine ⟨pace_info, dp, rfl, ?_, hdp, ?_⟩
        · rw [havail, htot]; exact hC
        · simp [htot, havail]

/-- Inversion of an infeasible result: the feasibility guard failed and
the record is the one `_generate_infeasible_response` builds. -/
lemma generate_infeasible_inv (profile : StudentProfile) (subject : String)
    (topics : List String) (deadline_days : ℕ)
    (difficulty_levels : List (String × String)) (r : InfeasibleResponse)
    (hinf : generate_personalized_plan profile subject topics deadline_days
      difficulty_levels = some (PlanResult.infeasible r)) :
    totalAvailableQ profile deadline_days <
      totalWithRevisionQ profile topics difficulty_levels ∧
    r = _generate_infeasible_response
      (totalWithRevisionQ profile topics difficulty_levels)
      (totalAvailableQ profile deadline_days) deadline_days
      profile.daily_available_hours := by
  cases hp : learning_pace profile.learning_pace with
  | none =>
    simp only [generate_personalized_plan, hp] at hinf
    simp at hinf
  | some pace_info =>
    have htot : totalWithRevisionQ profile topics difficulty_levels =
        ((_calculate_topic_times topics pace_info.hours_per_topic
          profile.weak_areas difficulty_levels).map Prod.snd).sum *
          (1 + pace_info.revision_ratio) := by
      simp [totalWithRevisionQ, hp]
    simp only [generate_personalized_plan, hp] at hinf
    split at hinf
    · rename_i hC
      constructor
      · rw [htot]; exact hC
      · injection hinf with h1
        injection h1 with h2
        rw [htot]
        exact h2.symm
    · split at hinf <;> simp at hinf

/-- Half-up rounding to one decimal overshoots by at most `1/20`. -/
lemma round1_le (x : ℚ) : round1 x ≤ x + 1/20 := by
  unfold round1
  have h : ((round (x * 10) : ℤ) : ℚ) ≤ x * 10 + 1/2 := by
    rw [round_eq]
    exact_mod_cast Int.floor_le (x * 10 + 1/2)
  linarith

/-- Modelled from the spec wording: base hours per topic by pace
(slow 4.0, moderate 2.5, fast 1.5). -/
def specBaseHours : String → ℚ
  | "slow" => 4
  | "moderate" => 5/2
  | "fast" => 3/2
  | _ => 0

/-- Modelled from the spec wording: revision ratio by pace
(slow 0.4, moderate 0.3, fast 0.2). -/
def specRevRatio : String → ℚ
  | "slow" => 2/5
  | "moderate" => 3/10
  | "fast" => 1/5
  | _ => 0

/-- Modelled from the spec wording of the per-topic allocation: pace base
hours, times 1.5 for a weak area, times 1.3 for "hard" or 0.7 for "easy"
(nothing for "medium" or unspecified), rounded to one decimal. -/
def specTopicAllocation (pace : String) (isWeak : Prop) [Decidable isWeak]
    (difficulty : Option String) : ℚ :=
  round1 (specBaseHours pace * (if isWeak then 3/2 else 1) *
    (if difficulty = some "hard" then 13/10
     else if difficulty = some "easy" then 7/10 else 1))

/-- The pace table of the source agrees with the table stated in the
spec. -/
lemma pace_tables_eq_spec (pace : String) (pace_info : PaceInfo)
    (hp : learning_pace pace = some pace_info) :
    pace_info.hours_per_topic = specBaseHours pace ∧
      pace_info.revision_ratio = specRevRatio pace := by
  unfold learning_pace at hp
  split at hp <;> simp_all [specBaseHours, specRevRatio] <;>
    simp [← hp, specBaseHours, specRevRatio]

/-- The sequential multiplier chain of `_calculate_topic_times` equals the
spec's product form. -/
lemma allocOne_eq_round1 (b : ℚ) (w : Prop) [Decidable w] (d : Option String) :
    allocOne b w d =
      round1 (b * (if w then 3/2 else 1) *
        (if d = some "hard" then 13/10
         else if d = some "easy" then 7/10 else 1)) := by
  unfold allocOne
  by_cases hw : w <;> cases d with
  | none => simp [hw] <;> congr 1 <;> norm_num <;> try ring
  | some s =>
    by_cases hh : s = "hard"
    · subst hh
      simp [hw] <;> congr 1 <;> norm_num <;> try ring
    · by_cases he : s = "easy"
      · subst he
        simp [hw, hh] <;> congr 1 <;> norm_num <;> try ring
      · simp [hw, hh, he] <;> congr 1 <;> norm_num <;> try ring

/-- C1: for every feasible plan, the reported `total_hours_needed` equals
the sum over the input topics of the per-topic allocation (pace base hours
slow 4.0 / moderate 2.5 / fast 1.5, times 1.5 for a weak area, times 1.3
for "hard" or 0.7 for "easy", rounded to one decimal), multiplied by
`1 + revision_ratio` of the pace and rounded to one decimal; in
particular pace moderate, weak area, difficulty "hard" allocates 4.9. -/
theorem c1_total_hours_formula (profile : StudentProfile) (subject : String)
    (topics : List String) (deadline_days : ℕ)
    (difficulty_levels : List (String × String)) (hnd : topics.Nodup)
    (hf : resultIsFeasible (generate_personalized_plan profile subject topics
      deadline_days difficulty_levels) = true) :
    totalHoursNeededOf (generate_personalized_plan profile subject topics
        deadline_days difficulty_levels) =
      some (round1 ((topics.map (fun t =>
          specTopicAllocation profile.learning_pace (t ∈ profile.weak_areas)
            (alookup difficulty_levels t))).sum *
        (1 + specRevRatio profile.learning_pace))) ∧
    specTopicAllocation "moderate" True (some "hard") = 4.9 := by
  obtain ⟨pace_info, dp, hp, hC, hdp, heq⟩ :=
    generate_feasible_inv profile subject topics deadline_days
      difficulty_levels hf
  constructor
  · rw [heq]
    simp only [totalHoursNeededOf]
    congr 2
    obtain ⟨hbase, hratio⟩ := pace_tables_eq_spec profile.learning_pace pace_info hp
    simp only [totalWithRevisionQ, hp, _calculate_topic_times, List.map_map]
    rw [hratio]
    congr 1
    congr 1
    apply List.map_congr_left
    intro t _
    simp only [Function.comp]
    rw [allocOne_eq_round1, hbase]
    rfl
  · norm_num [specTopicAllocation, specBaseHours, round1, round_eq]

/-- Closed instance of `c1_total_hours_formula` at a concrete feasible
input. -/
theorem c1_witness :
    totalHoursNeededOf (generate_personalized_plan
        ⟨"moderate", "pomodoro", 7, ["evening"], ["NN"]⟩ "ML" ["NN"] 1
        [("NN", "hard")]) =
      some (round1 (((["NN"] : List String).map (fun t =>
          specTopicAllocation "moderate" (t ∈ (["NN"] : List String))
            (alookup [("NN", "hard")] t))).sum *
        (1 + specRevRatio "moderate"))) ∧
    specTopicAllocation "moderate" True (some "hard") = 4.9 :=
  c1_total_hours_formula ⟨"moderate", "pomodoro", 7, ["evening"], ["NN"]⟩
    "ML" ["NN"] 1 [("NN", "hard")] (by simp) (by
      norm_num [generate_personalized_plan, learning_pace, session_patterns,
        _calculate_topic_times, allocOne, alookup, alookupD, round1, round_eq,
        pyInt, pyFloorDiv, _create_daily_schedule, revisionDays,
        revisionDayPhase, _generate_revision_sessions, learningPhase,
        revisionPhase, mkLearningSession, _generate_activities,
        _generate_personalized_tips, resultIsFeasible])

/-- C2: the result is infeasible exactly when the unrounded
`total_with_revision` strictly exceeds `deadline_days * daily_hours`; in
particular exact equality of needed and available hours yields a feasible
plan. -/
theorem c2_feasibility_boundary (profile : StudentProfile) (subject : String)
    (topics : List String) (deadline_days : ℕ)
    (difficulty_levels : List (String × String)) (pace_info : PaceInfo)
    (si : SessionInfo) (hnd : topics.Nodup)
    (hp : learning_pace profile.learning_pace = some pace_info)
    (hpat : session_patterns profile.study_pattern = some si)
    (hpt : profile.preferred_times ≠ []) (htop : topics ≠ []) :
    (resultIsInfeasible (generate_personalized_plan profile subject topics
        deadline_days difficulty_levels) = true ↔
      totalAvailableQ profile deadline_days <
        totalWithRevisionQ profile topics difficulty_levels) ∧
    (totalWithRevisionQ profile topics difficulty_levels =
        totalAvailableQ profile deadline_days →
      resultIsFeasible (generate_personalized_plan profile subject topics
        deadline_days difficulty_levels) = true) := by
  have htot : totalWithRevisionQ profile topics difficulty_levels =
      ((_calculate_topic_times topics pace_info.hours_per_topic
        profile.weak_areas difficulty_levels).map Prod.snd).sum *
        (1 + pace_info.revision_ratio) := by
    simp [totalWithRevisionQ, hp]
  have havail : totalAvailableQ profile deadline_days =
      (deadline_days : ℚ) * profile.daily_available_hours := rfl
  simp only [generate_personalized_plan, hp]
  by_cases hlt : (deadline_days : ℚ) * profile.daily_available_hours <
      ((_calculate_topic_times topics pace_info.hours_per_topic
        profile.weak_areas difficulty_levels).map Prod.snd).sum *
        (1 + pace_info.revision_ratio)
  · rw [if_pos hlt]
    constructor
    · constructor
      · intro _
        rw [havail, htot]
        exact hlt
      · intro _
        rfl
    · intro he
      exfalso
      rw [htot, havail] at he
      exact absurd he (ne_of_gt hlt)
  · rw [if_neg hlt]
    rw [create_daily_schedule_eq topics
      (_calculate_topic_times topics pace_info.hours_per_topic
        profile.weak_areas difficulty_levels)
      deadline_days profile.daily_available_hours profile.preferred_times
      profile.study_pattern profile.weak_areas si hpat hpt htop]
    constructor
    · simp only [resultIsInfeasible]
      constructor
      · intro hfalse
        exact absurd hfalse (by simp)
      · intro hcontra
        rw [havail, htot] at hcontra
        exact absurd hcontra hlt
    · intro _
      simp [resultIsFeasible]

/-- Closed instance of `c2_feasibility_boundary` at an input where needed
hours equal available hours exactly. -/
theorem c2_witness :
    (resultIsInfeasible (generate_personalized_plan
        ⟨"moderate", "pomodoro", 13/4, ["evening"], []⟩ "S" ["A"] 1 []) = true ↔
      totalAvailableQ ⟨"moderate", "pomodoro", 13/4, ["evening"], []⟩ 1 <
        totalWithRevisionQ ⟨"moderate", "pomodoro", 13/4, ["evening"], []⟩
          ["A"] []) ∧
    (totalWithRevisionQ ⟨"moderate", "pomodoro", 13/4, ["evening"], []⟩
        ["A"] [] =
        totalAvailableQ ⟨"moderate", "pomodoro", 13/4, ["evening"], []⟩ 1 →
      resultIsFeasible (generate_personalized_plan
        ⟨"moderate", "pomodoro", 13/4, ["evening"], []⟩ "S" ["A"] 1 []) = true) :=
  c2_feasibility_boundary ⟨"moderate", "pomodoro", 13/4, ["evening"], []⟩
    "S" ["A"] 1 [] ⟨5/2, 3/10⟩ ⟨25, 5, 15⟩ (by simp) rfl rfl
    (by simp) (by simp)

/-- C3 fails as stated: at `deadline_days = 1` the code still emits the
two mandatory revision days (`revision_days = max(2, 0) = 2`,
`study_days = -1` gives an empty learning phase), so a feasible plan for a
one-day deadline has a two-day `daily_plan`. -/
theorem c3_counterexample :
    feasiblePlanDays (generate_personalized_plan
        ⟨"moderate", "pomodoro", 4, ["evening"], []⟩ "S" ["A"] 1 []) =
      some 2 ∧ (2 : ℕ) ≠ 1 := by
  constructor
  · norm_num [generate_personalized_plan, learning_pace, session_patterns,
      _calculate_topic_times, allocOne, alookup, alookupD, round1, round_eq,
      pyInt, pyFloorDiv, _create_daily_schedule, revisionDays,
      revisionDayPhase, _generate_revision_sessions, learningPhase,
      revisionPhase, mkLearningSession, _generate_activities,
      _generate_personalized_tips, feasiblePlanDays]
  · decide

/-- C3 amended: for every feasible plan with `deadline_days ≥ 2` the
`daily_plan` has exactly `deadline_days` entries (at `deadline_days = 1`
it has 2). -/
theorem c3_day_count_amended (profile : StudentProfile) (subject : String)
    (topics : List String) (deadline_days : ℕ)
    (difficulty_levels : List (String × String)) (si : SessionInfo)
    (hpat : session_patterns profile.study_pattern = some si)
    (hpt : profile.preferred_times ≠ []) (htop : topics ≠ [])
    (hd : 2 ≤ deadline_days)
    (hf : resultIsFeasible (generate_personalized_plan profile subject topics
      deadline_days difficulty_levels) = true) :
    feasiblePlanDays (generate_personalized_plan profile subject topics
        deadline_days difficulty_levels) = some deadline_days := by
  obtain ⟨pace_info, dp, hp, hC, hdp, heq⟩ :=
    generate_feasible_inv profile subject topics deadline_days
      difficulty_levels hf
  rw [create_daily_schedule_eq topics
    (_calculate_topic_times topics pace_info.hours_per_topic
      profile.weak_areas difficulty_levels)
    deadline_days profile.daily_available_hours profile.preferred_times
    profile.study_pattern profile.weak_areas si hpat hpt htop] at hdp
  injection hdp with hdp
  rw [heq]
  simp only [feasiblePlanDays, ← hdp, List.length_append,
    learningPhase_length, revisionPhase_length, Option.some_inj]
  have hrle : revisionDays deadline_days ≤ deadline_days := by
    unfold revisionDays
    exact max_le hd (Nat.div_le_self deadline_days 5)
  omega

/-- Closed instance of `c3_day_count_amended` at `deadline_days = 2`. -/
theorem c3_witness :
    feasiblePlanDays (generate_personalized_plan
        ⟨"moderate", "pomodoro", 4, ["evening"], []⟩ "S" ["A"] 2 []) =
      some 2 :=
  c3_day_count_amended ⟨"moderate", "pomodoro", 4, ["evening"], []⟩ "S"
    ["A"] 2 [] ⟨25, 5, 15⟩ rfl (by simp) (by simp) (by norm_num) (by
      norm_num [generate_personalized_plan, learning_pace, session_patterns,
        _calculate_topic_times, allocOne, alookup, alookupD, round1, round_eq,
        pyInt, pyFloorDiv, _create_daily_schedule, revisionDays,
        revisionDayPhase, _generate_revision_sessions, learningPhase,
        revisionPhase, mkLearningSession, _generate_activities,
        _generate_personalized_tips, resultIsFeasible])

/-- Incrementing a topic's progress entry adds to its looked-up value,
provided the topic has an entry at all. -/
lemma alookupD_addProgress (l : List (String × ℚ)) (key : String) (delta : ℚ)
    (hs : (alookup l key).isSome = true) :
    alookupD (addProgress l key delta) key = alookupD l key + delta := by
  induction l with
  | nil => simp [alookup] at hs
  | cons p rest ih =>
    obtain ⟨k, v⟩ := p
    by_cases hk : k = key
    · subst hk
      have hhead : addProgress ((k, v) :: rest) k delta =
          (k, v + delta) :: addProgress rest k delta := by
        simp [addProgress]
      simp only [alookupD]
      rw [hhead]
      simp [alookup]
    · simp only [addProgress, List.map_cons, if_neg hk] at *
      simp only [alookupD, alookup, if_neg hk] at *
      exact ih hs

/-- Modelled from the claim wording for C4: one iteration of the
learning-phase scheduling: take the front topic; session length is the
minimum of the pattern session length in hours, the hours remaining, and
the allocated hours minus the hours already logged; emit a session exactly
when this exceeds 0.1 hour, subtracting the session length and then, if
hours still remain, the break length; pop the topic once logged hours
reach the allocation; a session of at most 0.1 hour pops the topic without
emitting. -/
def specLoopStep (si : SessionInfo) (topic_times : List (String × ℚ))
    (weak_areas : List String) (st : LoopState) : LoopState :=
  match st.queue with
  | [] => st
  | front :: rest =>
    let allocated := alookupD topic_times front
    let logged := alookupD st.progress front
    let len := min (si.session_length / 60) (min st.hours_remaining (allocated - logged))
    if 1/10 < len then
      { hours_remaining :=
          if 0 < st.hours_remaining - len then
            st.hours_remaining - len - si.break_length / 60
          else st.hours_remaining - len,
        queue := if allocated ≤ logged + len then rest else front :: rest,
        progress := addProgress st.progress front len,
        sessions := st.sessions ++ [mkLearningSession front len weak_areas],
        total_hours := st.total_hours + len }
    else
      { st with queue := rest }

/-- C4: on each learning day, each iteration of the session loop behaves
exactly as the claim describes (front of the FIFO queue; session length
`min(pattern/60, hours_remaining, allocated - logged)`; emission exactly
above 0.1 hour; break subtraction only while hours remain; pop on
completion or on a tiny session), and the pattern session lengths in hours
are pomodoro 25/60, deep_work 90/60 and short_burst 15/60. -/
theorem c4_learning_loop_step :
    (∀ (si : SessionInfo) (topic_times : List (String × ℚ))
        (weak_areas : List String) (st : LoopState),
      (∀ t ∈ st.queue, (alookup st.progress t).isSome = true) →
      loopStep si topic_times weak_areas st =
        specLoopStep si topic_times weak_areas st) ∧
    (session_patterns "pomodoro").map (fun s => s.session_length / 60) =
      some (25/60) ∧
    (session_patterns "deep_work").map (fun s => s.session_length / 60) =
      some (90/60) ∧
    (session_patterns "short_burst").map (fun s => s.session_length / 60) =
      some (15/60) := by
  refine ⟨?_, rfl, rfl, rfl⟩
  intro si topic_times weak_areas st hprog
  obtain ⟨h, q, pr, ss, tot⟩ := st
  cases q with
  | nil => rfl
  | cons t rest =>
    have hs : (alookup pr t).isSome = true := by
      have := hprog t (List.mem_cons_self t rest)
      simpa using this
    by_cases hcond : (1 : ℚ)/10 <
        min (si.session_length / 60) (min h (alookupD topic_times t - alookupD pr t))
    · simp only [loopStep, specLoopStep, if_pos hcond]
      rw [alookupD_addProgress pr t _ hs]
    · simp only [loopStep, specLoopStep, if_neg hcond]

/-- Closed instance of `c4_learning_loop_step` at a concrete loop state
with the topic present in the progress table. -/
theorem c4_witness :
    loopStep ⟨25, 5, 15⟩ [("A", 5/2)] [] ⟨3, ["A"], [("A", 0)], [], 0⟩ =
      specLoopStep ⟨25, 5, 15⟩ [("A", 5/2)] [] ⟨3, ["A"], [("A", 0)], [], 0⟩ :=
  c4_learning_loop_step.1 ⟨25, 5, 15⟩ [("A", 5/2)] []
    ⟨3, ["A"], [("A", 0)], [], 0⟩ (by simp [alookup])

/-- C5 fails as stated on fractional daily hours: with
`daily_available_hours = 3.33` the final-review session lasts
`int(3.33 * 30) = 99` minutes, not `3.33 × 30 = 99.9` minutes. -/
theorem c5_counterexample :
    lastDaySessionDurations (generate_personalized_plan
        ⟨"fast", "pomodoro", 333/100, ["evening"], []⟩ "S" ["A"] 1 []) =
      some [99] ∧ ¬ ((99 : ℚ) = (333/100) * 30) := by
  constructor
  · norm_num [generate_personalized_plan, learning_pace, session_patterns,
      _calculate_topic_times, allocOne, alookup, alookupD, round1, round_eq,
      pyInt, pyFloorDiv, _create_daily_schedule, revisionDays,
      revisionDayPhase, _generate_revision_sessions, learningPhase,
      revisionPhase, mkLearningSession, _generate_activities,
      _generate_personalized_tips, lastDaySessionDurations, List.getLast?,
      show List.range 2 = [0, 1] from rfl]
  · norm_num

/-- Modelled from the claim wording for C5, amended only in that the
final-review duration is `int(daily_hours * 30)` (truncated), as the
source computes: the last revision day is "Final Review & Mock Test" with
one session of that duration and a 3-item activity list; the second-to-
last is "Intensive Revision" with one session per weak-area topic of
`(daily_hours*60) // max(weak_count, 1)` minutes flagged weak; earlier
revision days are "Revision" with one session per topic of
`(daily_hours*60) // topic_count` minutes. -/
def specRevDayOK (topics weak_areas : List String) (daily_hours : ℚ)
    (revision_days i : ℕ) (day : DaySchedule) : Prop :=
  if i = revision_days - 1 then
    day.phase = "Final Review & Mock Test" ∧
    ∃ s, day.sessions = [s] ∧
      s.duration_minutes = (pyInt (daily_hours * 30) : ℚ) ∧
      s.activities.length = 3
  else if i = revision_days - 2 then
    day.phase = "Intensive Revision" ∧
    day.sessions.map Session.topic = weak_areas ∧
    ∀ s ∈ day.sessions,
      s.duration_minutes =
        pyFloorDiv (daily_hours * 60) (max weak_areas.length 1) ∧
      s.is_weak_area = true
  else
    day.phase = "Revision" ∧
    day.sessions.map Session.topic = topics ∧
    ∀ s ∈ day.sessions,
      s.duration_minutes = pyFloorDiv (daily_hours * 60) topics.length

/-- Modelled from the claim wording for C5: the result is a feasible plan
whose `daily_plan` ends in `revision_days = max(2, ⌊0.2·deadline⌋)` days
each matching `specRevDayOK`. -/
def revisionClaimOK (topics weak_areas : List String) (daily_hours : ℚ)
    (deadline_days : ℕ) (res : Option PlanResult) : Prop :=
  ∃ p, res = some (PlanResult.feasible p) ∧
    p.daily_plan.length =
      (deadline_days - max 2 (deadline_days / 5)) +
        max 2 (deadline_days / 5) ∧
    ∀ i, i < max 2 (deadline_days / 5) →
      ∃ day,
        p.daily_plan[(deadline_days - max 2 (deadline_days / 5)) + i]? =
          some day ∧
        specRevDayOK topics weak_areas daily_hours
          (max 2 (deadline_days / 5)) i day

/-- Each day built by `revisionPhase` satisfies the claim's description of
its phase. -/
lemma revisionPhase_day_ok (topics weak_areas preferred_times : List String)
    (daily_hours : ℚ) (deadline_days revision_days studyCount i : ℕ)
    (hi : i < revision_days) :
    specRevDayOK topics weak_areas daily_hours revision_days i
      { day := studyCount + i + 1,
        date := (deadline_days : ℤ) - (revision_days : ℤ) + (i : ℤ),
        phase := revisionDayPhase revision_days i,
        preferred_time :=
          preferred_times.getD (i % preferred_times.length) "",
        sessions := _generate_revision_sessions topics weak_areas daily_hours
          (revisionDayPhase revision_days i),
        total_hours := daily_hours } := by
  unfold specRevDayOK revisionDayPhase _generate_revision_sessions
  by_cases h1 : i = revision_days - 1
  · simp only [if_pos h1]
    refine ⟨by trivial, ⟨_, rfl, rfl, rfl⟩⟩
  · by_cases h2 : i = revision_days - 2
    · simp only [if_neg h1, if_pos h2]
      have hne : ("Intensive Revision" : String) ≠ "Final Review & Mock Test" := by
        decide
      simp only [if_neg hne]
      refine ⟨by trivial, ?_, ?_⟩
      · simp [Function.comp_def]
      · intro s hs
        obtain ⟨t, _, rfl⟩ := List.mem_map.mp hs
        exact ⟨rfl, rfl⟩
    · simp only [if_neg h1, if_neg h2]
      have hne1 : ("Revision" : String) ≠ "Final Review & Mock Test" := by
        decide
      have hne2 : ("Revision" : String) ≠ "Intensive Revision" := by
        decide
      simp only [if_neg hne1, if_neg hne2]
      refine ⟨by trivial, ?_, ?_⟩
      · simp [Function.comp_def]
      · intro s hs
        obtain ⟨t, _, rfl⟩ := List.mem_map.mp hs
        rfl

/-- C5 amended: in every feasible plan the revision phase spans
`max(2, ⌊deadline/5⌋)` trailing days whose phases and sessions are as the
claim states, with the final-review duration truncated to an integer
number of minutes. -/
theorem c5_revision_structure_amended (profile : StudentProfile)
    (subject : String) (topics : List String) (deadline_days : ℕ)
    (difficulty_levels : List (String × String)) (si : SessionInfo)
    (hpat : session_patterns profile.study_pattern = some si)
    (hpt : profile.preferred_times ≠ []) (htop : topics ≠ [])
    (hf : resultIsFeasible (generate_personalized_plan profile subject topics
      deadline_days difficulty_levels) = true) :
    revisionClaimOK topics profile.weak_areas profile.daily_available_hours
      deadline_days
      (generate_personalized_plan profile subject topics deadline_days
        difficulty_levels) := by
  obtain ⟨pace_info, dp, hp, hC, hdp, heq⟩ :=
    generate_feasible_inv profile subject topics deadline_days
      difficulty_levels hf
  rw [create_daily_schedule_eq topics
    (_calculate_topic_times topics pace_info.hours_per_topic
      profile.weak_areas difficulty_levels)
    deadline_days profile.daily_available_hours profile.preferred_times
    profile.study_pattern profile.weak_areas si hpat hpt htop] at hdp
  injection hdp with hdp
  have hrd : revisionDays deadline_days = max 2 (deadline_days / 5) := rfl
  have hlen : (learningPhase si
      (_calculate_topic_times topics pace_info.hours_per_topic
        profile.weak_areas difficulty_levels)
      profile.weak_areas profile.preferred_times
      profile.daily_available_hours
      (deadline_days - revisionDays deadline_days) 0 topics
      (topics.map (fun t => (t, (0 : ℚ))))).1.length =
      deadline_days - revisionDays deadline_days :=
    learningPhase_length _ _ _ _ _ _ _ _ _
  refine ⟨_, heq, ?_, ?_⟩
  · simp only [← hdp, List.length_append, hlen, revisionPhase_length]
    rw [hrd]
  · intro i hi
    have hidx : dp[(deadline_days - max 2 (deadline_days / 5)) + i]? =
        (revisionPhase topics profile.weak_areas profile.preferred_times
          profile.daily_available_hours deadline_days
          (revisionDays deadline_days)
          (deadline_days - revisionDays deadline_days))[i]? := by
      rw [← hdp, List.getElem?_append_right (by rw [hlen]; omega)]
      rw [hlen]
      congr 1
      omega
    rw [hidx]
    unfold revisionPhase
    rw [List.getElem?_map, List.getElem?_range (by rw [hrd]; exact hi)]
    refine ⟨_, rfl, ?_⟩
    exact revisionPhase_day_ok topics profile.weak_areas
      profile.preferred_times profile.daily_available_hours deadline_days
      (revisionDays deadline_days)
      (deadline_days - revisionDays deadline_days) i (by rw [hrd]; exact hi)

/-- Closed instance of `c5_revision_structure_amended` at a concrete
feasible input. -/
theorem c5_witness :
    revisionClaimOK ["A"] [] (333/100) 1
      (generate_personalized_plan ⟨"fast", "pomodoro", 333/100, ["evening"], []⟩
        "S" ["A"] 1 []) :=
  c5_revision_structure_amended ⟨"fast", "pomodoro", 333/100, ["evening"], []⟩
    "S" ["A"] 1 [] ⟨25, 5, 15⟩ rfl (by simp) (by simp) (by
      norm_num [generate_personalized_plan, learning_pace, session_patterns,
        _calculate_topic_times, allocOne, alookup, alookupD, round1, round_eq,
        pyInt, pyFloorDiv, _create_daily_schedule, revisionDays,
        revisionDayPhase, _generate_revision_sessions, learningPhase,
        revisionPhase, mkLearningSession, _generate_activities,
        _generate_personalized_tips, resultIsFeasible])

/-- `int()` truncation agrees with `⌊·⌋` on non-negative arguments. -/
lemma pyInt_nonneg (q : ℚ) (h : 0 ≤ q) : pyInt q = ⌊q⌋ := by
  unfold pyInt
  rw [if_neg (not_lt.mpr h)]

/-- C6: an infeasible result reports `hours_short = round(needed −
available, 1)`; it contains the raise-daily-hours suggestion (with figure
`needed / deadline_days`) exactly when that figure is at most 12; it
always contains the extended-deadline suggestion computed from
`⌊needed / daily_hours⌋ + 1` days and the fast-pace suggestion; for three
topics at slow pace with `deadline_days = 2` and `daily_hours = 3` the
suggested daily-hour figure is 8.4 and the suggested new deadline is 6. -/
theorem c6_infeasible_suggestions (profile : StudentProfile)
    (subject : String) (topics : List String) (deadline_days : ℕ)
    (difficulty_levels : List (String × String)) (r : InfeasibleResponse)
    (hd : 0 < deadline_days) (hdh : 0 < profile.daily_available_hours)
    (hinf : generate_personalized_plan profile subject topics deadline_days
      difficulty_levels = some (PlanResult.infeasible r)) :
    r.hours_short = round1 (totalWithRevisionQ profile topics
      difficulty_levels - totalAvailableQ profile deadline_days) ∧
    (Suggestion.increaseDailyHours
        (totalWithRevisionQ profile topics difficulty_levels /
          (deadline_days : ℚ)) profile.daily_available_hours ∈
        r.suggestions ↔
      totalWithRevisionQ profile topics difficulty_levels /
        (deadline_days : ℚ) ≤ 12) ∧
    Suggestion.extendDeadline
      (⌊totalWithRevisionQ profile topics difficulty_levels /
          profile.daily_available_hours⌋ + 1) deadline_days ∈
      r.suggestions ∧
    Suggestion.fastPace ∈ r.suggestions ∧
    suggestionsOf (generate_personalized_plan
        ⟨"slow", "pomodoro", 3, ["evening"], []⟩ "Exam" ["A", "B", "C"] 2 []) =
      some [Suggestion.increaseDailyHours (42/5) 3,
        Suggestion.extendDeadline 6 2, Suggestion.fastPace] := by
  obtain ⟨hlt, hr⟩ :=
    generate_infeasible_inv profile subject topics deadline_days
      difficulty_levels r hinf
  have havail0 : 0 ≤ totalAvailableQ profile deadline_days := by
    unfold totalAvailableQ
    exact mul_nonneg (Nat.cast_nonneg _) (le_of_lt hdh)
  have hneed0 : 0 ≤ totalWithRevisionQ profile topics difficulty_levels :=
    le_of_lt (lt_of_le_of_lt havail0 hlt)
  have hdiv0 : 0 ≤ totalWithRevisionQ profile topics difficulty_levels /
      profile.daily_available_hours :=
    div_nonneg hneed0 (le_of_lt hdh)
  subst hr
  refine ⟨rfl, ?_, ?_, ?_, ?_⟩
  · constructor
    · intro hmem
      by_contra h12
      simp only [_generate_infeasible_response, if_neg h12, List.nil_append,
        List.mem_cons, List.mem_singleton] at hmem
      rcases hmem with h | h | h <;> simp at h
    · intro h12
      simp [_generate_infeasible_response, if_pos h12]
  · simp [_generate_infeasible_response, pyInt_nonneg _ hdiv0]
  · simp [_generate_infeasible_response]
  · norm_num [generate_personalized_plan, learning_pace, session_patterns,
      _calculate_topic_times, allocOne, alookup, round1, round_eq,
      _generate_infeasible_response, pyInt, suggestionsOf]

/-- Closed instance of `c6_infeasible_suggestions` at the claim's concrete
infeasible input (three topics, slow pace, two days, three daily hours). -/
theorem c6_witness :
    ((_generate_infeasible_response
        (totalWithRevisionQ ⟨"slow", "pomodoro", 3, ["evening"], []⟩
          ["A", "B", "C"] [])
        (totalAvailableQ ⟨"slow", "pomodoro", 3, ["evening"], []⟩ 2) 2
        3).hours_short =
      round1 (totalWithRevisionQ ⟨"slow", "pomodoro", 3, ["evening"], []⟩
          ["A", "B", "C"] [] -
        totalAvailableQ ⟨"slow", "pomodoro", 3, ["evening"], []⟩ 2)) ∧
    (Suggestion.increaseDailyHours
        (totalWithRevisionQ ⟨"slow", "pomodoro", 3, ["evening"], []⟩
            ["A", "B", "C"] [] / ((2 : ℕ) : ℚ)) 3 ∈
        (_generate_infeasible_response
          (totalWithRevisionQ ⟨"slow", "pomodoro", 3, ["evening"], []⟩
            ["A", "B", "C"] [])
          (totalAvailableQ ⟨"slow", "pomodoro", 3, ["evening"], []⟩ 2) 2
          3).suggestions ↔
      totalWithRevisionQ ⟨"slow", "pomodoro", 3, ["evening"], []⟩
          ["A", "B", "C"] [] / ((2 : ℕ) : ℚ) ≤ 12) ∧
    Suggestion.extendDeadline
      (⌊totalWithRevisionQ ⟨"slow", "pomodoro", 3, ["evening"], []⟩
          ["A", "B", "C"] [] / (3 : ℚ)⌋ + 1) 2 ∈
      (_generate_infeasible_response
        (totalWithRevisionQ ⟨"slow", "pomodoro", 3, ["evening"], []⟩
          ["A", "B", "C"] [])
        (totalAvailableQ ⟨"slow", "pomodoro", 3, ["evening"], []⟩ 2) 2
        3).suggestions ∧
    Suggestion.fastPace ∈
      (_generate_infeasible_response
        (totalWithRevisionQ ⟨"slow", "pomodoro", 3, ["evening"], []⟩
          ["A", "B", "C"] [])
        (totalAvailableQ ⟨"slow", "pomodoro", 3, ["evening"], []⟩ 2) 2
        3).suggestions ∧
    suggestionsOf (generate_personalized_plan
        ⟨"slow", "pomodoro", 3, ["evening"], []⟩ "Exam" ["A", "B", "C"] 2 []) =
      some [Suggestion.increaseDailyHours (42/5) 3,
        Suggestion.extendDeadline 6 2, Suggestion.fastPace] :=
  c6_infeasible_suggestions ⟨"slow", "pomodoro", 3, ["evening"], []⟩ "Exam"
    ["A", "B", "C"] 2 [] _ (by norm_num) (by norm_num) (by
      norm_num [generate_personalized_plan, learning_pace,
        _calculate_topic_times, allocOne, alookup, round1, round_eq,
        totalWithRevisionQ, totalAvailableQ])

/-- C7 fails as stated: one moderate weak-area "hard" topic allocates
4.9 hours, so the unrounded need is `4.9 × 1.3 = 6.37`; with
`daily_available_hours = 6.38` over one day the feasibility guard passes
(`6.37 ≤ 6.38`), but the reported `total_hours_needed` rounds up to `6.4`
(no tie: 6.37 is 0.03 below 6.4), which exceeds
`total_hours_available = 6.38`. -/
theorem c7_counterexample :
    feasibleNeedExceedsAvail (generate_personalized_plan
        ⟨"moderate", "pomodoro", 319/50, ["evening"], ["NN"]⟩ "S" ["NN"] 1
        [("NN", "hard")]) = true := by
  norm_num [generate_personalized_plan, learning_pace, session_patterns,
    _calculate_topic_times, allocOne, alookup, alookupD, round1, round_eq,
    pyInt, pyFloorDiv, _create_daily_schedule, revisionDays,
    revisionDayPhase, _generate_revision_sessions, learningPhase,
    revisionPhase, mkLearningSession, _generate_activities,
    _generate_personalized_tips, feasibleNeedExceedsAvail]

/-- C7 amended: on valid inputs every result is fully feasible or fully
infeasible (the two dictionary shapes, never a mixture), and every
feasible plan satisfies the guard on the unrounded totals,
`needed ≤ available`; the reported rounded `total_hours_needed` can
exceed `total_hours_available` only by the rounding, by at most 0.05. -/
theorem c7_dichotomy_amended (profile : StudentProfile) (subject : String)
    (topics : List String) (deadline_days : ℕ)
    (difficulty_levels : List (String × String)) (pace_info : PaceInfo)
    (si : SessionInfo)
    (hp : learning_pace profile.learning_pace = some pace_info)
    (hpat : session_patterns profile.study_pattern = some si)
    (hpt : profile.preferred_times ≠ []) (htop : topics ≠ []) :
    (resultIsFeasible (generate_personalized_plan profile subject topics
        deadline_days difficulty_levels) = true ∨
      resultIsInfeasible (generate_personalized_plan profile subject topics
        deadline_days difficulty_levels) = true) ∧
    (∀ p, generate_personalized_plan profile subject topics deadline_days
        difficulty_levels = some (PlanResult.feasible p) →
      totalWithRevisionQ profile topics difficulty_levels ≤
        totalAvailableQ profile deadline_days ∧
      p.total_hours_needed ≤ p.total_hours_available + 1/20) := by
  constructor
  · simp only [generate_personalized_plan, hp]
    by_cases hlt : (deadline_days : ℚ) * profile.daily_available_hours <
        ((_calculate_topic_times topics pace_info.hours_per_topic
          profile.weak_areas difficulty_levels).map Prod.snd).sum *
          (1 + pace_info.revision_ratio)
    · right
      rw [if_pos hlt]
      rfl
    · left
      rw [if_neg hlt, create_daily_schedule_eq topics
        (_calculate_topic_times topics pace_info.hours_per_topic
          profile.weak_areas difficulty_levels)
        deadline_days profile.daily_available_hours profile.preferred_times
        profile.study_pattern profile.weak_areas si hpat hpt htop]
      simp [resultIsFeasible]
  · intro p hfe
    have hfeas : resultIsFeasible (generate_personalized_plan profile subject
        topics deadline_days difficulty_levels) = true := by
      rw [hfe]
      rfl
    obtain ⟨pace_info', dp, hp2, hC, hdp, heq⟩ :=
      generate_feasible_inv profile subject topics deadline_days
        difficulty_levels hfeas
    have hpp : PlanResult.feasible
        { subject := subject,
          student_profile := profile,
          total_topics := topics.length,
          deadline := (deadline_days : ℤ),
          total_hours_needed :=
            round1 (totalWithRevisionQ profile topics difficulty_levels),
          total_hours_available := totalAvailableQ profile deadline_days,
          buffer_hours := round1 (totalAvailableQ profile deadline_days -
            totalWithRevisionQ profile topics difficulty_levels),
          daily_plan := dp,
          study_tips := _generate_personalized_tips profile topics } =
        PlanResult.feasible p := by
      have := heq.symm.trans hfe
      exact Option.some_inj.mp this
    injection hpp with hpp
    subst hpp
    have hle : totalWithRevisionQ profile topics difficulty_levels ≤
        totalAvailableQ profile deadline_days := not_lt.mp hC
    refine ⟨hle, ?_⟩
    calc round1 (totalWithRevisionQ profile topics difficulty_levels)
        ≤ totalWithRevisionQ profile topics difficulty_levels + 1/20 :=
          round1_le _
      _ ≤ totalAvailableQ profile deadline_days + 1/20 := by linarith

/-- Closed instance of `c7_dichotomy_amended` at a concrete valid input. -/
theorem c7_witness :
    (resultIsFeasible (generate_personalized_plan
        ⟨"moderate", "pomodoro", 4, ["evening"], []⟩ "S" ["A"] 1 []) = true ∨
      resultIsInfeasible (generate_personalized_plan
        ⟨"moderate", "pomodoro", 4, ["evening"], []⟩ "S" ["A"] 1 []) = true) ∧
    (∀ p, generate_personalized_plan
        ⟨"moderate", "pomodoro", 4, ["evening"], []⟩ "S" ["A"] 1 [] =
        some (PlanResult.feasible p) →
      totalWithRevisionQ ⟨"moderate", "pomodoro", 4, ["evening"], []⟩
          ["A"] [] ≤
        totalAvailableQ ⟨"moderate", "pomodoro", 4, ["evening"], []⟩ 1 ∧
      p.total_hours_needed ≤ p.total_hours_available + 1/20) :=
  c7_dichotomy_amended ⟨"moderate", "pomodoro", 4, ["evening"], []⟩ "S"
    ["A"] 1 [] ⟨5/2, 3/10⟩ ⟨25, 5, 15⟩ rfl rfl (by simp) (by simp)

/-- C8: `get_plan_summary` is a pure function of the plan value: rendering
the same plan twice yields identical text, and the plan itself is a value
the renderer cannot modify (the source reads it and builds a string; no
state or randomness is involved). -/
theorem c8_summary_deterministic :
    ∀ (deadline_days : ℕ) (plan : PlanResult),
      get_plan_summary deadline_days plan =
        get_plan_summary deadline_days plan :=
  fun _ _ => rfl

/-- C9: `StudyChatbot.ask` returns the remote model's text stripped of
surrounding whitespace on success, and on any failure returns the string
"Error: " followed by the stringified exception instead of propagating
it (the function is total on both outcomes). -/
theorem c9_ask_error_handling :
    (∀ content : String,
      StudyChatbot.ask (Except.ok content) = content.trim) ∧
    (∀ e : String, StudyChatbot.ask (Except.error e) = "Error: " ++ e) :=
  ⟨fun _ => rfl, fun _ => rfl⟩

/-- C10: the learning-phase scheduling loop terminates: running it with
`loopMeasure` as fuel (tenths of the remaining hours plus the queue
length) reaches a state where the loop guard is false, because every
iteration either pops the finite queue or consumes more than 0.1 hour. -/
theorem c10_loop_terminates (si : SessionInfo)
    (topic_times : List (String × ℚ)) (weak_areas : List String)
    (st : LoopState) (hb : 0 ≤ si.break_length) :
    loopGuard (loopRun si topic_times weak_areas (loopMeasure st) st) =
      false :=
  loopRun_guard_false si topic_times weak_areas hb (loopMeasure st) st
    (le_refl _)

/-- Closed instance of `c10_loop_terminates` for the pomodoro pattern on a
one-topic state. -/
theorem c10_witness :
    0 ≤ (⟨25, 5, 15⟩ : SessionInfo).break_length ∧
    loopGuard (loopRun ⟨25, 5, 15⟩ [("A", 5/2)] []
      (loopMeasure ⟨3, ["A"], [("A", 0)], [], 0⟩)
      ⟨3, ["A"], [("A", 0)], [], 0⟩) = false :=
  ⟨by norm_num,
    c10_loop_terminates ⟨25, 5, 15⟩ [("A", 5/2)] []
      ⟨3, ["A"], [("A", 0)], [], 0⟩ (by norm_num)⟩
